import Mathlib

/-!
Verification of the Keycloak Terraform resource analyzer
(`keycloak_analyzer.py`): a shallow embedding of its data model and of the
functions `categorize_keycloak_resources`, `analyze_user_security`,
`generate_workspace_summary`, `load_terraform_state` and the
summary-collection loop of `run_analysis`, together with theorems about
them.
-/

namespace KeycloakAnalyzer

/-- A JSON-like Python value, as found inside a resource's `values`
mapping (the state snapshot is `json.loads` output). -/
inductive JValue where
  | null : JValue
  | bool (b : Bool) : JValue
  | num (n : Int) : JValue
  | str (s : String) : JValue
  | arr (xs : List JValue) : JValue
  | obj (kvs : List (String × JValue)) : JValue

/-- Python truthiness of a JSON-like value (`if v:`). -/
def pyTruthy : JValue → Bool
  | .null => false
  | .bool b => b
  | .num n => n != 0
  | .str s => s != ""
  | .arr xs => !xs.isEmpty
  | .obj kvs => !kvs.isEmpty

/-- Lookup in a Python dict modelled as an association list
(`d[k]` / `k in d` support). -/
def dictGet (kvs : List (String × JValue)) (k : String) : Option JValue :=
  match kvs with
  | [] => none
  | (k', v) :: rest => if k' == k then some v else dictGet rest k

/-- Python `d.get(k, default)` on a dict. -/
def dictGetD (kvs : List (String × JValue)) (k : String) (d : JValue) : JValue :=
  (dictGet kvs k).getD d

/-- Python `v.get(k, default)` on an arbitrary value: raises
`AttributeError` when `v` is not a dict. -/
def pyGet (v : JValue) (k : String) (d : JValue) : Except String JValue :=
  match v with
  | .obj kvs => .ok (dictGetD kvs k d)
  | _ => .error "AttributeError"

/-- `needle.isPrefixOf hay` on character lists, written out. -/
def charsStart : List Char → List Char → Bool
  | [], _ => true
  | _ :: _, [] => false
  | a :: as, b :: bs => a == b && charsStart as bs

/-- Occurrence of `needle` anywhere in `hay` (character lists). -/
def charsHave (needle : List Char) : List Char → Bool
  | [] => charsStart needle []
  | b :: bs => charsStart needle (b :: bs) || charsHave needle bs

/-- Python substring containment `needle in hay` on strings. -/
def strIn (needle hay : String) : Bool :=
  charsHave needle.data hay.data

/-- A Terraform resource record: the `type`, `address` and `values` keys of
the resource dict, each possibly absent. -/
structure Resource where
  type : Option String
  address : Option String
  values : Option (List (String × JValue))

/-- `resource.get('type', '')`. -/
def Resource.pyType (r : Resource) : String :=
  r.type.getD ""

/-- `resource.get('address', '')`. -/
def Resource.pyAddress (r : Resource) : String :=
  r.address.getD ""

/-- `resource.get('values', {})`. -/
def Resource.pyValues (r : Resource) : List (String × JValue) :=
  r.values.getD []

/-- The ten fixed categories of `categorize_keycloak_resources`. -/
inductive Category where
  | realms | users | clients | roles | groups
  | identity_providers | authentication_flows | scopes | mappers | other
deriving DecidableEq, Repr

/-- Insertion order of the `categories` dict literal in
`categorize_keycloak_resources`. -/
def categoryOrder : List Category :=
  [.realms, .users, .clients, .roles, .groups, .identity_providers,
   .authentication_flows, .scopes, .mappers, .other]

/-- The if/elif chain of `categorize_keycloak_resources` on one type
string: first containment match wins. -/
def classifyType (t : String) : Category :=
  if strIn "realm" t && t != "keycloak_user" then .realms
  else if strIn "user" t then .users
  else if strIn "client" t then .clients
  else if strIn "role" t then .roles
  else if strIn "group" t then .groups
  else if strIn "identity_provider" t || strIn "idp" t then .identity_providers
  else if strIn "authentication" t || strIn "flow" t then .authentication_flows
  else if strIn "scope" t then .scopes
  else if strIn "mapper" t then .mappers
  else .other

/-- Category of one resource: `classifyType` of `resource.get('type', '')`. -/
def classifyRes (r : Resource) : Category :=
  classifyType r.pyType

/-- The `categories` dict of `categorize_keycloak_resources`: one resource
list per category. -/
structure Categories where
  realms : List Resource
  users : List Resource
  clients : List Resource
  roles : List Resource
  groups : List Resource
  identity_providers : List Resource
  authentication_flows : List Resource
  scopes : List Resource
  mappers : List Resource
  other : List Resource

/-- The field of `Categories` named by a `Category`. -/
def Categories.get (c : Categories) : Category → List Resource
  | .realms => c.realms
  | .users => c.users
  | .clients => c.clients
  | .roles => c.roles
  | .groups => c.groups
  | .identity_providers => c.identity_providers
  | .authentication_flows => c.authentication_flows
  | .scopes => c.scopes
  | .mappers => c.mappers
  | .other => c.other

/-- The empty `categories` dict the loop starts from. -/
def Categories.empty : Categories :=
  ⟨[], [], [], [], [], [], [], [], [], []⟩

/-- One iteration of the loop body: append `r` to the category list chosen
by the if/elif chain (here: cons in front of the later resources). -/
def Categories.add (r : Resource) (c : Categories) : Categories :=
  match classifyRes r with
  | .realms => { c with realms := r :: c.realms }
  | .users => { c with users := r :: c.users }
  | .clients => { c with clients := r :: c.clients }
  | .roles => { c with roles := r :: c.roles }
  | .groups => { c with groups := r :: c.groups }
  | .identity_providers =>
      { c with identity_providers := r :: c.identity_providers }
  | .authentication_flows =>
      { c with authentication_flows := r :: c.authentication_flows }
  | .scopes => { c with scopes := r :: c.scopes }
  | .mappers => { c with mappers := r :: c.mappers }
  | .other => { c with other := r :: c.other }

/-- `categorize_keycloak_resources`: partition the resource list into the
ten category lists, preserving input order within each category. -/
def categorize_keycloak_resources : List Resource → Categories
  | [] => Categories.empty
  | r :: rest => Categories.add r (categorize_keycloak_resources rest)

/-- The per-user `user_info` record built by `analyze_user_security`
(`username` and `email` are stored verbatim, `enabled` is always
overwritten with a boolean by the if/else at the end of the loop body). -/
structure UserInfo where
  username : JValue
  email : JValue
  enabled : Bool
  has_password : Bool
  temporary_password : Bool
  requires_password_change : Bool

/-- The `security_analysis` aggregate of `analyze_user_security`. -/
structure SecurityAnalysis where
  total_users : Nat
  users_with_passwords : Nat
  users_without_passwords : Nat
  temporary_passwords : Nat
  enabled_users : Nat
  disabled_users : Nat
  users_requiring_password_change : Nat
  user_details : List UserInfo

/-- The aggregate as initialised before the loop of
`analyze_user_security`. -/
def SecurityAnalysis.init (n : Nat) : SecurityAnalysis :=
  { total_users := n
    users_with_passwords := 0
    users_without_passwords := 0
    temporary_passwords := 0
    enabled_users := 0
    disabled_users := 0
    users_requiring_password_change := 0
    user_details := [] }

/-- One iteration of the loop of `analyze_user_security` over one user
resource; the `AttributeError` of
`values.get('initial_password', {}).get('temporary', False)` on a
non-dict `initial_password` value is the `.error` case. -/
def processUser (user : Resource) (acc : SecurityAnalysis) :
    Except String SecurityAnalysis :=
  let values := user.pyValues
  let info0 : UserInfo :=
    { username := dictGetD values "username" (.str "unknown")
      email := dictGetD values "email" (.str "")
      enabled := pyTruthy (dictGetD values "enabled" (.bool true))
      has_password := false
      temporary_password := false
      requires_password_change := false }
  let step1 : Except String (UserInfo × SecurityAnalysis) :=
    match dictGet values "initial_password" with
    | some _ =>
        match pyGet (dictGetD values "initial_password" (.obj []))
            "temporary" (.bool false) with
        | .error e => .error e
        | .ok temp =>
            .ok ({ info0 with
                     has_password := true
                     temporary_password := pyTruthy temp },
                 { acc with
                     users_with_passwords := acc.users_with_passwords + 1
                     temporary_passwords := acc.temporary_passwords +
                       if pyTruthy temp then 1 else 0 })
    | none =>
        .ok (info0,
          { acc with
              users_without_passwords := acc.users_without_passwords + 1 })
  match step1 with
  | .error e => .error e
  | .ok (info1, acc1) =>
      let enabled := pyTruthy (dictGetD values "enabled" (.bool true))
      let (info2, acc2) :=
        if enabled then
          ({ info1 with enabled := true },
           { acc1 with enabled_users := acc1.enabled_users + 1 })
        else
          ({ info1 with enabled := false },
           { acc1 with disabled_users := acc1.disabled_users + 1 })
      .ok { acc2 with user_details := acc2.user_details ++ [info2] }

/-- The loop of `analyze_user_security`, threading the aggregate; an
exception raised on one user aborts the whole call. -/
def analyzeLoop : List Resource → SecurityAnalysis →
    Except String SecurityAnalysis
  | [], acc => .ok acc
  | user :: rest, acc =>
      match processUser user acc with
      | .error e => .error e
      | .ok acc' => analyzeLoop rest acc'

/-- `analyze_user_security`: aggregate security facts over a list of user
resources. -/
def analyze_user_security (users : List Resource) :
    Except String SecurityAnalysis :=
  analyzeLoop users (SecurityAnalysis.init users.length)

/-- A discovered workspace (`TerraformWorkspace` dataclass): `path` and
`name`, presence of a local `terraform.tfstate`, the resource list and the
outputs mapping (both empty at discovery). -/
structure TerraformWorkspace where
  path : String
  name : String
  has_state : Bool
  resources : List Resource
  outputs : List (String × JValue)

/-- A realm entry of the `detailed_analysis['realms']` projection (the
`enabled` value is copied verbatim, not coerced to a boolean). -/
structure RealmInfo where
  name : JValue
  enabled : JValue
  display_name : JValue
  address : String

/-- A client entry of `detailed_analysis['clients']`. -/
structure ClientInfo where
  client_id : JValue
  name : JValue
  enabled : JValue
  protocol : JValue
  address : String

/-- An entry of `detailed_analysis['identity_providers']`. -/
structure IdpInfo where
  «alias» : JValue
  provider_id : JValue
  enabled : JValue
  address : String

/-- Projection of one realm resource (`generate_workspace_summary`,
realms comprehension). -/
def realmInfo (r : Resource) : RealmInfo :=
  { name := dictGetD r.pyValues "realm" (.str "unknown")
    enabled := dictGetD r.pyValues "enabled" (.bool true)
    display_name := dictGetD r.pyValues "display_name" (.str "")
    address := r.pyAddress }

/-- Projection of one client resource (`generate_workspace_summary`,
clients comprehension). -/
def clientInfo (c : Resource) : ClientInfo :=
  { client_id := dictGetD c.pyValues "client_id" (.str "unknown")
    name := dictGetD c.pyValues "name" (.str "")
    enabled := dictGetD c.pyValues "enabled" (.bool true)
    protocol := dictGetD c.pyValues "protocol" (.str "")
    address := c.pyAddress }

/-- Projection of one identity-provider resource
(`generate_workspace_summary`, identity_providers comprehension). -/
def idpInfo (idp : Resource) : IdpInfo :=
  { «alias» := dictGetD idp.pyValues "alias" (.str "unknown")
    provider_id := dictGetD idp.pyValues "provider_id" (.str "")
    enabled := dictGetD idp.pyValues "enabled" (.bool true)
    address := idp.pyAddress }

/-- The `detailed_analysis` dict: each key present only when the
corresponding category list is non-empty. -/
structure DetailedAnalysis where
  user_security : Option SecurityAnalysis
  realms : Option (List RealmInfo)
  clients : Option (List ClientInfo)
  identity_providers : Option (List IdpInfo)

/-- A per-workspace summary record. `categories` is the
`{k: len(v) for k, v in categories.items() if v}` comprehension, in dict
insertion order; `detailed_analysis` and `outputs` are absent on the
no-resources record, `error` is absent otherwise. -/
structure WorkspaceSummary where
  name : String
  path : String
  has_state : Bool
  resource_count : Nat
  categories : List (Category × Nat)
  detailed_analysis : Option DetailedAnalysis
  outputs : Option (List (String × JValue))
  error : Option String

/-- `generate_workspace_summary`: the no-resources marker record on an
empty resource list, else classifier counts plus conditional detail
analyses; an exception from `analyze_user_security` propagates. -/
def generate_workspace_summary (w : TerraformWorkspace) :
    Except String WorkspaceSummary :=
  if w.resources.isEmpty then
    .ok { name := w.name
          path := w.path
          has_state := w.has_state
          resource_count := 0
          categories := []
          detailed_analysis := none
          outputs := none
          error := some "No resources found or state not loaded" }
  else
    let categories := categorize_keycloak_resources w.resources
    let userSec : Except String (Option SecurityAnalysis) :=
      if categories.users.isEmpty then .ok none
      else
        match analyze_user_security categories.users with
        | .error e => .error e
        | .ok s => .ok (some s)
    match userSec with
    | .error e => .error e
    | .ok user_security =>
        .ok { name := w.name
              path := w.path
              has_state := w.has_state
              resource_count := w.resources.length
              categories :=
                ((categoryOrder.map (fun k => (k, categories.get k))).filter
                  (fun p => !p.2.isEmpty)).map (fun p => (p.1, p.2.length))
              detailed_analysis := some
                { user_security := user_security
                  realms :=
                    if categories.realms.isEmpty then none
                    else some (categories.realms.map realmInfo)
                  clients :=
                    if categories.clients.isEmpty then none
                    else some (categories.clients.map clientInfo)
                  identity_providers :=
                    if categories.identity_providers.isEmpty then none
                    else some (categories.identity_providers.map idpInfo) }
              outputs := some w.outputs
              error := none }

/-- The summary-collection loop of `run_analysis`
(`self.summary_data[workspace.name] = self.generate_workspace_summary(...)`
for every discovered workspace). -/
def collect_summaries : List TerraformWorkspace →
    Except String (List (String × WorkspaceSummary))
  | [] => .ok []
  | w :: rest =>
      match generate_workspace_summary w with
      | .error e => .error e
      | .ok s =>
          match collect_summaries rest with
          | .error e => .error e
          | .ok tail => .ok ((w.name, s) :: tail)

/-- The process state `load_terraform_state` may touch: the current
working directory and a log of external-command invocations, each tagged
with the working directory it was issued from. -/
structure World where
  cwd : String
  log : List (String × List String)

/-- Outcome of `terraform show -json` followed by `json.loads`: one of the
three caught exception classes, or the parsed snapshot. -/
inductive ShowOutcome where
  | calledProcessError
  | jsonDecodeError
  | fileNotFoundError
  | success (state_data : JValue)

/-- Outcome of `terraform output -json` followed by `json.loads`: caught
failure, or the parsed outputs dict. -/
inductive OutputOutcome where
  | failure
  | success (outputs : List (String × JValue))

/-- Behaviour of the external Terraform CLI for one workspace. -/
structure Env where
  show_outcome : ShowOutcome
  output_outcome : OutputOutcome

/-- Python `k in v` / `v[k]` on a parsed snapshot, restricted to dict
snapshots (the only shape the state guard meaningfully accepts). -/
def jHasKey (v : JValue) (k : String) : Bool :=
  match v with
  | .obj kvs => (dictGet kvs k).isSome
  | _ => false

/-- `v[k]` on a dict value, `null` otherwise. -/
def jIndex (v : JValue) (k : String) : JValue :=
  match v with
  | .obj kvs => (dictGet kvs k).getD .null
  | _ => .null

/-- View of a JSON value as a dict. -/
def asDict : JValue → Option (List (String × JValue))
  | .obj kvs => some kvs
  | _ => none

/-- View of a JSON value as a string. -/
def asString : JValue → Option String
  | .str s => some s
  | _ => none

/-- Read one snapshot resource dict into the typed `Resource`
projection used by the rest of the embedding. -/
def toResource (v : JValue) : Resource :=
  match v with
  | .obj kvs =>
      { type := (dictGet kvs "type").bind asString
        address := (dictGet kvs "address").bind asString
        values := (dictGet kvs "values").bind asDict }
  | _ => { type := none, address := none, values := none }

/-- `state_data['values']['root_module'].get('resources', [])` behind the
`'values' in state_data and 'root_module' in state_data['values']` guard;
an empty list when the guard fails (the field keeps its initial value). -/
def snapshotResources (state_data : JValue) : List Resource :=
  if jHasKey state_data "values" &&
      jHasKey (jIndex state_data "values") "root_module" then
    match jIndex (jIndex state_data "values") "root_module" with
    | .obj kvs =>
        match dictGetD kvs "resources" (.arr []) with
        | .arr xs => xs.map toResource
        | _ => []
    | _ => []
  else []

/-- `load_terraform_state`: returns the success flag, the (possibly
updated) workspace record and the final process state. A workspace
without local state returns immediately; otherwise the working directory
is moved to the workspace path for the external invocations and the
`finally` block moves it back to the base path on every outcome. -/
def load_terraform_state (env : Env) (basePath : String)
    (w : TerraformWorkspace) (world : World) :
    Bool × TerraformWorkspace × World :=
  if !w.has_state then
    (false, w, world)
  else
    let world1 : World :=
      { cwd := w.path
        log := world.log ++ [(w.path, ["terraform", "show", "-json"])] }
    match env.show_outcome with
    | .calledProcessError => (false, w, { world1 with cwd := basePath })
    | .jsonDecodeError => (false, w, { world1 with cwd := basePath })
    | .fileNotFoundError => (false, w, { world1 with cwd := basePath })
    | .success state_data =>
        let w1 :=
          if jHasKey state_data "values" &&
              jHasKey (jIndex state_data "values") "root_module" then
            { w with resources := snapshotResources state_data }
          else w
        let world2 : World :=
          { world1 with
              log := world1.log ++
                [(w.path, ["terraform", "output", "-json"])] }
        let w2 :=
          match env.output_outcome with
          | .failure => { w1 with outputs := [] }
          | .success outs => { w1 with outputs := outs }
        (true, w2, { world2 with cwd := basePath })

/-- A resource of the overlapping-keyword type from the spec's
order-sensitivity test. -/
def userFedMapperRes : Resource :=
  { type := some "keycloak_user_federation_mapper"
    address := none
    values := none }

/-- A plain realm resource. -/
def realmRes : Resource :=
  { type := some "keycloak_realm"
    address := some "keycloak_realm.example"
    values := none }

/-- A plain user resource with no password and no `enabled` key. -/
def aliceRes : Resource :=
  { type := some "keycloak_user"
    address := some "keycloak_user.alice"
    values := some [("username", .str "alice")] }

/-- A user resource whose `initial_password` value is a string instead of
a mapping. -/
def badPasswordRes : Resource :=
  { type := some "keycloak_user"
    address := none
    values := some [("initial_password", .str "secret")] }

/-- A user resource with a temporary initial password. -/
def tempPasswordRes : Resource :=
  { type := some "keycloak_user"
    address := none
    values := some [("initial_password",
      .obj [("value", .str "pw"), ("temporary", .bool true)])] }

/-- A loaded workspace holding the single user resource `aliceRes`. -/
def wsAlice : TerraformWorkspace :=
  { path := "/repo/prod"
    name := "prod"
    has_state := true
    resources := [aliceRes]
    outputs := [] }

/-- A stateless workspace with the empty resource list it was discovered
with. -/
def wsEmpty : TerraformWorkspace :=
  { path := "/repo/staging"
    name := "staging"
    has_state := false
    resources := []
    outputs := [] }

/-- The security aggregate `analyze_user_security` produces for
`[aliceRes]`. -/
def aliceSecurity : SecurityAnalysis :=
  { total_users := 1
    users_with_passwords := 0
    users_without_passwords := 1
    temporary_passwords := 0
    enabled_users := 1
    disabled_users := 0
    users_requiring_password_change := 0
    user_details :=
      [{ username := .str "alice"
         email := .str ""
         enabled := true
         has_password := false
         temporary_password := false
         requires_password_change := false }] }

/-- The summary `generate_workspace_summary` produces for `wsAlice`. -/
def aliceSummary : WorkspaceSummary :=
  { name := "prod"
    path := "/repo/prod"
    has_state := true
    resource_count := 1
    categories := [(Category.users, 1)]
    detailed_analysis := some
      { user_security := some aliceSecurity
        realms := none
        clients := none
        identity_providers := none }
    outputs := some []
    error := none }

/-- The marker summary `generate_workspace_summary` produces for
`wsEmpty`. -/
def emptySummary : WorkspaceSummary :=
  { name := "staging"
    path := "/repo/staging"
    has_state := false
    resource_count := 0
    categories := []
    detailed_analysis := none
    outputs := none
    error := some "No resources found or state not loaded" }

/-- The no-resources marker record of `generate_workspace_summary`, as a
function of the workspace. -/
def noResourcesSummary (w : TerraformWorkspace) : WorkspaceSummary :=
  { name := w.name
    path := w.path
    has_state := w.has_state
    resource_count := 0
    categories := []
    detailed_analysis := none
    outputs := none
    error := some "No resources found or state not loaded" }

/-- An initial process state for the state-loader theorems. -/
def worldEx : World :=
  { cwd := "/repo", log := [] }

/-- An environment whose external command fails. -/
def envFail : Env :=
  { show_outcome := .calledProcessError, output_outcome := .failure }

/-- Sum of the lengths of the ten category lists. -/
def sumLens (c : Categories) : Nat :=
  (categoryOrder.map (fun k => (c.get k).length)).sum

/-- A user resource whose `initial_password` value, when the key is
present, is a mapping — the shape on which the `temporary` lookup of
`analyze_user_security` cannot raise. -/
def okPassword (u : Resource) : Prop :=
  ∀ v, dictGet u.pyValues "initial_password" = some v →
    ∃ kvs, v = JValue.obj kvs

lemma Categories.get_add (r : Resource) (c : Categories) (k : Category) :
    (Categories.add r c).get k =
      if classifyRes r = k then r :: c.get k else c.get k := by
  cases h : classifyRes r <;> cases k <;>
    simp [Categories.add, Categories.get, h]

lemma get_categorize (rs : List Resource) (k : Category) :
    (categorize_keycloak_resources rs).get k =
      rs.filter (fun r => classifyRes r == k) := by
  induction rs with
  | nil => cases k <;> rfl
  | cons r rest ih =>
      simp only [categorize_keycloak_resources, Categories.get_add, ih,
        List.filter_cons]
      by_cases h : classifyRes r = k <;> simp [h]

lemma sumLens_add (r : Resource) (c : Categories) :
    sumLens (Categories.add r c) = sumLens c + 1 := by
  cases h : classifyRes r <;>
    simp [sumLens, categoryOrder, Categories.add, Categories.get, h] <;>
    omega

lemma sumLens_categorize (rs : List Resource) :
    sumLens (categorize_keycloak_resources rs) = rs.length := by
  induction rs with
  | nil => rfl
  | cons r rest ih =>
      simp [categorize_keycloak_resources, sumLens_add, ih]

lemma sum_filter_nonempty (l : List (Category × List Resource)) :
    ((l.filter (fun p => !p.2.isEmpty)).map (fun p => p.2.length)).sum =
      (l.map (fun p => p.2.length)).sum := by
  induction l with
  | nil => rfl
  | cons p rest ih =>
      by_cases h : p.2.isEmpty
      · have hlen : p.2.length = 0 := by
          cases hp : p.2 with
          | nil => rfl
          | cons a as => rw [hp] at h; simp [List.isEmpty] at h
        simp [List.filter_cons, h, ih, hlen]
      · simp [List.filter_cons, h, ih]

lemma cats_counts_sum (rs : List Resource) :
    ((((categoryOrder.map
          (fun k => (k, (categorize_keycloak_resources rs).get k))).filter
        (fun p => !p.2.isEmpty)).map
          (fun p => (p.1, p.2.length))).map Prod.snd).sum = rs.length := by
  simp only [List.map_map]
  have hcomp :
      (Prod.snd ∘ fun p : Category × List Resource =>
        (p.1, p.2.length)) = fun p => p.2.length := rfl
  rw [hcomp, sum_filter_nonempty, List.map_map]
  have hcomp2 :
      ((fun p : Category × List Resource => p.2.length) ∘
        fun k => (k, (categorize_keycloak_resources rs).get k))
      = fun k => ((categorize_keycloak_resources rs).get k).length := rfl
  rw [hcomp2]
  exact sumLens_categorize rs

lemma summary_categories_sum (w : TerraformWorkspace) (s : WorkspaceSummary)
    (h : generate_workspace_summary w = .ok s) :
    (s.categories.map Prod.snd).sum = s.resource_count := by
  unfold generate_workspace_summary at h
  by_cases hw : w.resources.isEmpty
  · rw [if_pos hw] at h
    cases h
    rfl
  · rw [if_neg hw] at h
    dsimp only at h
    split at h
    · exact absurd h (by simp)
    · simp only [Except.ok.injEq] at h
      subst h
      exact cats_counts_sum w.resources

/-- C2: classification is first-match in the documented order: the type
string "keycloak_user_federation_mapper" contains both "user" and
"mapper", and `categorize_keycloak_resources` puts such a resource in the
users list, not the mappers list. -/
theorem claim_C2 :
    strIn "user" "keycloak_user_federation_mapper" = true
    ∧ strIn "mapper" "keycloak_user_federation_mapper" = true
    ∧ (categorize_keycloak_resources [userFedMapperRes]).users
        = [userFedMapperRes]
    ∧ (categorize_keycloak_resources [userFedMapperRes]).mappers = [] := by
  refine ⟨by decide, by decide, rfl, rfl⟩

/-- C3: a resource is classified `realms` exactly when its type string
contains "realm" and is not exactly "keycloak_user"; in particular
"keycloak_realm" classifies as `realms`. -/
theorem claim_C3 (r : Resource) :
    (classifyRes r = Category.realms ↔
      (strIn "realm" r.pyType = true ∧ r.pyType ≠ "keycloak_user"))
    ∧ (categorize_keycloak_resources [realmRes]).realms = [realmRes] := by
  constructor
  · unfold classifyRes classifyType
    by_cases h1 : strIn "realm" r.pyType = true
    · by_cases h2 : r.pyType = "keycloak_user"
      · rw [h2] at h1
        exact absurd h1 (by decide)
      · have hcond : (strIn "realm" r.pyType &&
            (r.pyType != "keycloak_user")) = true := by
          simp [h1, bne_iff_ne, h2]
        rw [if_pos hcond]
        simp [h1, h2]
    · have hcond : (strIn "realm" r.pyType &&
          (r.pyType != "keycloak_user")) = false := by
        have hfalse : strIn "realm" r.pyType = false := by
          simpa using h1
        simp [hfalse]
      rw [if_neg (by simp [hcond])]
      constructor
      · intro hc
        exfalso
        revert hc
        (repeat' split) <;> simp
      · intro hc
        exact absurd hc.1 h1
  · rfl

/-- C1: `categorize_keycloak_resources` is a partition: the ten category
list lengths sum to the input length, the category lists are pairwise
disjoint, every input resource lands in exactly one category list, and in
any summary `generate_workspace_summary` returns, the recorded category
counts sum to `resource_count`. -/
theorem claim_C1 (resources : List Resource) (w : TerraformWorkspace)
    (s : WorkspaceSummary) (h : generate_workspace_summary w = .ok s) :
    ((categoryOrder.map
        (fun k =>
          ((categorize_keycloak_resources resources).get k).length)).sum
      = resources.length)
    ∧ (∀ k₁ k₂, k₁ ≠ k₂ → ∀ r,
        r ∈ (categorize_keycloak_resources resources).get k₁ →
          r ∉ (categorize_keycloak_resources resources).get k₂)
    ∧ (∀ r ∈ resources,
        ∃! k, r ∈ (categorize_keycloak_resources resources).get k)
    ∧ (s.categories.map Prod.snd).sum = s.resource_count := by
  refine ⟨sumLens_categorize resources, ?_, ?_,
    summary_categories_sum w s h⟩
  · intro k₁ k₂ hne r h1 h2
    rw [get_categorize] at h1 h2
    simp only [List.mem_filter, beq_iff_eq] at h1 h2
    exact hne (h1.2 ▸ h2.2)
  · intro r hr
    refine ⟨classifyRes r, ?_, ?_⟩
    · show r ∈ (categorize_keycloak_resources resources).get (classifyRes r)
      rw [get_categorize]
      simp [List.mem_filter, hr]
    · intro k hk
      rw [get_categorize] at hk
      simp only [List.mem_filter, beq_iff_eq] at hk
      exact hk.2.symm

/-- Witness for C1 at a one-resource workspace. -/
theorem claim_C1_witness :
    generate_workspace_summary wsAlice = .ok aliceSummary
    ∧ (((categoryOrder.map
          (fun k =>
            ((categorize_keycloak_resources [aliceRes]).get k).length)).sum
        = [aliceRes].length)
      ∧ (∀ k₁ k₂, k₁ ≠ k₂ → ∀ r,
          r ∈ (categorize_keycloak_resources [aliceRes]).get k₁ →
            r ∉ (categorize_keycloak_resources [aliceRes]).get k₂)
      ∧ (∀ r ∈ [aliceRes],
          ∃! k, r ∈ (categorize_keycloak_resources [aliceRes]).get k)
      ∧ (aliceSummary.categories.map Prod.snd).sum
          = aliceSummary.resource_count) :=
  ⟨rfl, claim_C1 [aliceRes] wsAlice aliceSummary rfl⟩

lemma processUser_ok_shape (u : Resource) (acc acc' : SecurityAnalysis)
    (h : processUser u acc = .ok acc') :
    ∃ d : UserInfo,
      acc'.user_details = acc.user_details ++ [d]
      ∧ acc'.total_users = acc.total_users
      ∧ acc'.users_requiring_password_change
          = acc.users_requiring_password_change
      ∧ d.requires_password_change = false
      ∧ d.enabled = pyTruthy (dictGetD u.pyValues "enabled" (.bool true))
      ∧ acc'.enabled_users = acc.enabled_users +
          (if pyTruthy (dictGetD u.pyValues "enabled" (.bool true))
            then 1 else 0)
      ∧ acc'.disabled_users = acc.disabled_users +
          (if pyTruthy (dictGetD u.pyValues "enabled" (.bool true))
            then 0 else 1)
      ∧ d.has_password = (dictGet u.pyValues "initial_password").isSome
      ∧ acc'.users_with_passwords = acc.users_with_passwords +
          (if (dictGet u.pyValues "initial_password").isSome then 1 else 0)
      ∧ acc'.users_without_passwords = acc.users_without_passwords +
          (if (dictGet u.pyValues "initial_password").isSome then 0 else 1)
      ∧ acc'.temporary_passwords = acc.temporary_passwords +
          (if d.temporary_password then 1 else 0)
      ∧ (∀ kvs, dictGet u.pyValues "initial_password" = some (.obj kvs) →
          d.temporary_password
            = pyTruthy (dictGetD kvs "temporary" (.bool false)))
      ∧ (dictGet u.pyValues "initial_password" = none →
          d.temporary_password = false) := by
  unfold processUser at h
  dsimp only at h
  cases hip : dictGet u.pyValues "initial_password" with
  | none =>
      rw [hip] at h
      dsimp only at h
      by_cases he : pyTruthy (dictGetD u.pyValues "enabled" (.bool true))
        = true
      · rw [if_pos he] at h
        simp only [Except.ok.injEq] at h
        subst h
        refine ⟨_, rfl, rfl, rfl, rfl, by simp [he], by simp [he],
          by simp [he], by simp [hip], by simp [hip], by simp [hip],
          by simp, ?_, fun _ => rfl⟩
        intro kvs' hk
        exact Option.noConfusion hk
      · rw [if_neg he] at h
        simp only [Except.ok.injEq] at h
        subst h
        refine ⟨_, rfl, rfl, rfl, rfl, by simp [he], by simp [he],
          by simp [he], by simp [hip], by simp [hip], by simp [hip],
          by simp, ?_, fun _ => rfl⟩
        intro kvs' hk
        exact Option.noConfusion hk
  | some ip =>
      have hd : dictGetD u.pyValues "initial_password" (.obj []) = ip := by
        unfold dictGetD
        rw [hip]
        rfl
      rw [hip, hd] at h
      cases ip
      case obj kvs =>
        dsimp only [pyGet] at h
        by_cases he : pyTruthy (dictGetD u.pyValues "enabled" (.bool true))
          = true
        · rw [if_pos he] at h
          simp only [Except.ok.injEq] at h
          subst h
          refine ⟨_, rfl, rfl, rfl, rfl, by simp [he], by simp [he],
            by simp [he], by simp [hip], by simp [hip], by simp [hip],
            rfl, ?_, ?_⟩
          · intro kvs' hk
            simp only [Option.some.injEq, JValue.obj.injEq] at hk
            subst hk
            rfl
          · intro hk
            exact Option.noConfusion hk
        · rw [if_neg he] at h
          simp only [Except.ok.injEq] at h
          subst h
          refine ⟨_, rfl, rfl, rfl, rfl, by simp [he], by simp [he],
            by simp [he], by simp [hip], by simp [hip], by simp [hip],
            rfl, ?_, ?_⟩
          · intro kvs' hk
            simp only [Option.some.injEq, JValue.obj.injEq] at hk
            subst hk
            rfl
          · intro hk
            exact Option.noConfusion hk
      all_goals
        dsimp only [pyGet] at h
        exact absurd h (by simp)

lemma processUser_ok_of (u : Resource) (acc : SecurityAnalysis)
    (hok : okPassword u) :
    ∃ acc', processUser u acc = .ok acc' := by
  unfold processUser
  dsimp only
  cases hip : dictGet u.pyValues "initial_password" with
  | none =>
      dsimp only
      by_cases he : pyTruthy (dictGetD u.pyValues "enabled" (.bool true))
        = true
      · rw [if_pos he]
        exact ⟨_, rfl⟩
      · rw [if_neg he]
        exact ⟨_, rfl⟩
  | some ip =>
      obtain ⟨kvs, rfl⟩ := hok ip hip
      have hd : dictGetD u.pyValues "initial_password" (.obj [])
          = JValue.obj kvs := by
        unfold dictGetD
        rw [hip]
        rfl
      rw [hd]
      dsimp only [pyGet]
      by_cases he : pyTruthy (dictGetD u.pyValues "enabled" (.bool true))
        = true
      · rw [if_pos he]
        exact ⟨_, rfl⟩
      · rw [if_neg he]
        exact ⟨_, rfl⟩

lemma analyzeLoop_ok_of (users : List Resource) (acc : SecurityAnalysis)
    (h : ∀ u ∈ users, okPassword u) :
    ∃ s, analyzeLoop users acc = .ok s := by
  induction users generalizing acc with
  | nil => exact ⟨acc, rfl⟩
  | cons u rest ih =>
      obtain ⟨acc', hstep⟩ := processUser_ok_of u acc (h u (by simp))
      obtain ⟨s, hs⟩ := ih acc' (fun v hv => h v (by simp [hv]))
      refine ⟨s, ?_⟩
      unfold analyzeLoop
      rw [hstep]
      exact hs

/-- C4: a user whose `initial_password` mapping has `temporary = true`
increments both `users_with_passwords` and `temporary_passwords` and gets
a detail record with `has_password = true` and `temporary_password =
true`; a user with no `initial_password` key increments only
`users_without_passwords` among the password counters and gets
`has_password = false`. -/
theorem claim_C4 (u : Resource) (acc : SecurityAnalysis) :
    (∀ kvs, dictGet u.pyValues "initial_password" = some (.obj kvs) →
      dictGet kvs "temporary" = some (.bool true) →
      ∃ acc', processUser u acc = .ok acc'
        ∧ acc'.users_with_passwords = acc.users_with_passwords + 1
        ∧ acc'.temporary_passwords = acc.temporary_passwords + 1
        ∧ ∃ d, acc'.user_details = acc.user_details ++ [d]
            ∧ d.has_password = true ∧ d.temporary_password = true)
    ∧ (dictGet u.pyValues "initial_password" = none →
      ∃ acc', processUser u acc = .ok acc'
        ∧ acc'.users_without_passwords = acc.users_without_passwords + 1
        ∧ acc'.users_with_passwords = acc.users_with_passwords
        ∧ acc'.temporary_passwords = acc.temporary_passwords
        ∧ ∃ d, acc'.user_details = acc.user_details ++ [d]
            ∧ d.has_password = false) := by
  constructor
  · intro kvs h1 h2
    obtain ⟨acc', hok⟩ := processUser_ok_of u acc
      (by intro v hv; rw [h1] at hv; exact ⟨kvs, (Option.some_inj.mp hv).symm⟩)
    obtain ⟨d, hdet, _, _, _, _, _, _, hhp, hwith, _, htmp, htset, _⟩ :=
      processUser_ok_shape u acc acc' hok
    have hT : d.temporary_password = true := by
      rw [htset kvs h1]
      unfold dictGetD
      rw [h2]
      rfl
    refine ⟨acc', hok, by simp [hwith, h1], by simp [htmp, hT], d, hdet,
      by simp [hhp, h1], hT⟩
  · intro h1
    obtain ⟨acc', hok⟩ := processUser_ok_of u acc
      (by intro v hv; rw [h1] at hv; exact Option.noConfusion hv)
    obtain ⟨d, hdet, _, _, _, _, _, _, hhp, hwith, hwou, htmp, _, htf⟩ :=
      processUser_ok_shape u acc acc' hok
    refine ⟨acc', hok, by simp [hwou, h1], by simp [hwith, h1],
      by simp [htmp, htf h1], d, hdet, by simp [hhp, h1]⟩

/-- Witness for C4: a user with a temporary initial password, and a user
with no password. -/
theorem claim_C4_witness :
    (∃ acc', processUser tempPasswordRes (SecurityAnalysis.init 1)
        = .ok acc'
      ∧ acc'.users_with_passwords
          = (SecurityAnalysis.init 1).users_with_passwords + 1
      ∧ acc'.temporary_passwords
          = (SecurityAnalysis.init 1).temporary_passwords + 1
      ∧ ∃ d, acc'.user_details
            = (SecurityAnalysis.init 1).user_details ++ [d]
          ∧ d.has_password = true ∧ d.temporary_password = true)
    ∧ (∃ acc', processUser aliceRes (SecurityAnalysis.init 1) = .ok acc'
      ∧ acc'.users_without_passwords
          = (SecurityAnalysis.init 1).users_without_passwords + 1
      ∧ acc'.users_with_passwords
          = (SecurityAnalysis.init 1).users_with_passwords
      ∧ acc'.temporary_passwords
          = (SecurityAnalysis.init 1).temporary_passwords
      ∧ ∃ d, acc'.user_details
            = (SecurityAnalysis.init 1).user_details ++ [d]
          ∧ d.has_password = false) :=
  ⟨(claim_C4 tempPasswordRes (SecurityAnalysis.init 1)).1
      [("value", .str "pw"), ("temporary", .bool true)] rfl rfl,
   (claim_C4 aliceRes (SecurityAnalysis.init 1)).2 rfl⟩

/-- C5: a user whose `values` has no `enabled` key is counted as enabled
(fail-open default) and its detail record carries `enabled = true`. -/
theorem claim_C5 (u : Resource) (acc acc' : SecurityAnalysis)
    (hen : dictGet u.pyValues "enabled" = none)
    (h : processUser u acc = .ok acc') :
    acc'.enabled_users = acc.enabled_users + 1
    ∧ acc'.disabled_users = acc.disabled_users
    ∧ ∃ d, acc'.user_details = acc.user_details ++ [d]
        ∧ d.enabled = true := by
  have he : pyTruthy (dictGetD u.pyValues "enabled" (.bool true)) = true := by
    unfold dictGetD
    rw [hen]
    rfl
  obtain ⟨d, hdet, _, _, _, hden, henn, hdis, _⟩ :=
    processUser_ok_shape u acc acc' h
  exact ⟨by simp [henn, he], by simp [hdis, he], d, hdet,
    by simp [hden, he]⟩

/-- Witness for C5: the password-less user with no `enabled` key. -/
theorem claim_C5_witness :
    aliceSecurity.enabled_users = (SecurityAnalysis.init 1).enabled_users + 1
    ∧ aliceSecurity.disabled_users = (SecurityAnalysis.init 1).disabled_users
    ∧ ∃ d, aliceSecurity.user_details
          = (SecurityAnalysis.init 1).user_details ++ [d]
        ∧ d.enabled = true :=
  claim_C5 aliceRes (SecurityAnalysis.init 1) aliceSecurity rfl rfl

lemma analyzeLoop_pwchange (users : List Resource)
    (acc s : SecurityAnalysis) (h : analyzeLoop users acc = .ok s)
    (h0 : acc.users_requiring_password_change = 0)
    (hd : ∀ d ∈ acc.user_details, d.requires_password_change = false) :
    s.users_requiring_password_change = 0
    ∧ ∀ d ∈ s.user_details, d.requires_password_change = false := by
  induction users generalizing acc with
  | nil =>
      unfold analyzeLoop at h
      simp only [Except.ok.injEq] at h
      subst h
      exact ⟨h0, hd⟩
  | cons u rest ih =>
      unfold analyzeLoop at h
      cases hp : processUser u acc with
      | error e => rw [hp] at h; exact absurd h (by simp)
      | ok acc1 =>
          rw [hp] at h
          obtain ⟨d, hdet, _, heq, hdf, _⟩ :=
            processUser_ok_shape u acc acc1 hp
          refine ih acc1 h (heq ▸ h0) ?_
          intro d' hd'
          rw [hdet] at hd'
          rcases List.mem_append.mp hd' with h1 | h2
          · exact hd d' h1
          · rw [List.mem_singleton] at h2
            subst h2
            exact hdf

/-- C10: `users_requiring_password_change` is initialised to zero and
never incremented, and every per-user detail record keeps
`requires_password_change = false`, on every successful run of
`analyze_user_security`. -/
theorem claim_C10 (users : List Resource) (s : SecurityAnalysis)
    (h : analyze_user_security users = .ok s) :
    s.users_requiring_password_change = 0
    ∧ ∀ d ∈ s.user_details, d.requires_password_change = false :=
  analyzeLoop_pwchange users (SecurityAnalysis.init users.length) s h rfl
    (by intro d hd; exact absurd hd (by simp [SecurityAnalysis.init]))

/-- Witness for C10 on a one-user list. -/
theorem claim_C10_witness :
    aliceSecurity.users_requiring_password_change = 0
    ∧ ∀ d ∈ aliceSecurity.user_details,
        d.requires_password_change = false :=
  claim_C10 [aliceRes] aliceSecurity rfl

lemma generate_empty (w : TerraformWorkspace) (hw : w.resources = []) :
    generate_workspace_summary w = .ok (noResourcesSummary w) := by
  unfold generate_workspace_summary
  rw [if_pos (by simp [hw])]
  rfl

lemma generate_ok_of (w : TerraformWorkspace)
    (h : ∀ u ∈ w.resources, okPassword u) :
    ∃ s, generate_workspace_summary w = .ok s := by
  unfold generate_workspace_summary
  by_cases hw : w.resources.isEmpty
  · rw [if_pos hw]
    exact ⟨_, rfl⟩
  · rw [if_neg hw]
    dsimp only
    by_cases hu : (categorize_keycloak_resources w.resources).users.isEmpty
      = true
    · rw [if_pos hu]
      exact ⟨_, rfl⟩
    · rw [if_neg hu]
      have hsub : ∀ u ∈ (categorize_keycloak_resources w.resources).users,
          okPassword u := by
        intro u hu'
        have hc : (categorize_keycloak_resources w.resources).users
            = (categorize_keycloak_resources w.resources).get .users := rfl
        rw [hc, get_categorize] at hu'
        exact h u (List.mem_filter.mp hu').1
      obtain ⟨sa, hsa⟩ := analyzeLoop_ok_of
        (categorize_keycloak_resources w.resources).users
        (SecurityAnalysis.init
          (categorize_keycloak_resources w.resources).users.length) hsub
      unfold analyze_user_security
      rw [hsa]
      exact ⟨_, rfl⟩

/-- C6 counterexample: on a user whose `initial_password` value is a
string, `analyze_user_security` raises `AttributeError` instead of
recovering by defaulting, so the analyzers are not total over arbitrary
`values` contents. -/
theorem claim_C6_counterexample :
    analyze_user_security [badPasswordRes] = .error "AttributeError"
    ∧ ¬∃ s, analyze_user_security [badPasswordRes] = .ok s := by
  refine ⟨rfl, ?_⟩
  rintro ⟨s, hs⟩
  rw [show analyze_user_security [badPasswordRes]
      = Except.error "AttributeError" from rfl] at hs
  exact Except.noConfusion hs

/-- C6 (amended): missing fields are recovered via defaulting and the
analyzers are total, provided every present `initial_password` value is a
mapping — `analyze_user_security` and `generate_workspace_summary` then
return a result for every input. -/
theorem claim_C6 (users : List Resource) (w : TerraformWorkspace)
    (h1 : ∀ u ∈ users, okPassword u)
    (h2 : ∀ u ∈ w.resources, okPassword u) :
    (∃ s, analyze_user_security users = .ok s)
    ∧ ∃ s, generate_workspace_summary w = .ok s :=
  ⟨analyzeLoop_ok_of users (SecurityAnalysis.init users.length) h1,
   generate_ok_of w h2⟩

/-- Witness for C6 (amended) on a well-shaped user list and workspace. -/
theorem claim_C6_witness :
    (∃ s, analyze_user_security [aliceRes] = .ok s)
    ∧ ∃ s, generate_workspace_summary wsAlice = .ok s :=
  claim_C6 [aliceRes] wsAlice
    (by
      intro u hu v hv
      rw [List.mem_singleton] at hu
      subst hu
      rw [show dictGet aliceRes.pyValues "initial_password" = none
        from rfl] at hv
      exact Option.noConfusion hv)
    (by
      intro u hu v hv
      rw [show wsAlice.resources = [aliceRes] from rfl,
        List.mem_singleton] at hu
      subst hu
      rw [show dictGet aliceRes.pyValues "initial_password" = none
        from rfl] at hv
      exact Option.noConfusion hv)

lemma collect_mem (ws : List TerraformWorkspace)
    (sd : List (String × WorkspaceSummary))
    (hc : collect_summaries ws = .ok sd)
    (w : TerraformWorkspace) (hw : w ∈ ws) :
    ∃ s, (w.name, s) ∈ sd ∧ generate_workspace_summary w = .ok s := by
  induction ws generalizing sd with
  | nil => exact absurd hw (by simp)
  | cons w0 rest ih =>
      unfold collect_summaries at hc
      cases hg : generate_workspace_summary w0 with
      | error e => rw [hg] at hc; exact absurd hc (by simp)
      | ok s0 =>
          rw [hg] at hc
          cases hrest : collect_summaries rest with
          | error e => rw [hrest] at hc; exact absurd hc (by simp)
          | ok tail =>
              rw [hrest] at hc
              simp only [Except.ok.injEq] at hc
              subst hc
              rcases List.mem_cons.mp hw with h0 | h0
              · subst h0
                exact ⟨s0, List.mem_cons_self _ _, hg⟩
              · obtain ⟨s, hmem, hgen⟩ := ih tail hrest h0
                exact ⟨s, List.mem_cons_of_mem _ hmem, hgen⟩

/-- C7: a workspace with an empty resource list gets the explicit
no-resources marker summary — `resource_count = 0`, an empty `categories`
mapping, no detail analysis, and the error marker — and still appears as
an entry of the run-level summary mapping. -/
theorem claim_C7 (ws : List TerraformWorkspace)
    (sd : List (String × WorkspaceSummary))
    (hc : collect_summaries ws = .ok sd)
    (w : TerraformWorkspace) (hw : w ∈ ws) (hr : w.resources = []) :
    generate_workspace_summary w = .ok (noResourcesSummary w)
    ∧ ∃ s, (w.name, s) ∈ sd
        ∧ s.resource_count = 0
        ∧ s.categories = []
        ∧ s.detailed_analysis = none
        ∧ s.error = some "No resources found or state not loaded" := by
  have hg := generate_empty w hr
  refine ⟨hg, ?_⟩
  obtain ⟨s, hmem, hgen⟩ := collect_mem ws sd hc w hw
  rw [hg] at hgen
  simp only [Except.ok.injEq] at hgen
  subst hgen
  exact ⟨_, hmem, rfl, rfl, rfl, rfl⟩

/-- Witness for C7 on a two-workspace run with one stateless workspace. -/
theorem claim_C7_witness :
    generate_workspace_summary wsEmpty = .ok (noResourcesSummary wsEmpty)
    ∧ ∃ s, (wsEmpty.name, s)
          ∈ [(wsAlice.name, aliceSummary), (wsEmpty.name, emptySummary)]
        ∧ s.resource_count = 0
        ∧ s.categories = []
        ∧ s.detailed_analysis = none
        ∧ s.error = some "No resources found or state not loaded" :=
  claim_C7 [wsAlice, wsEmpty]
    [(wsAlice.name, aliceSummary), (wsEmpty.name, emptySummary)] rfl
    wsEmpty (List.Mem.tail _ (List.Mem.head _)) rfl

/-- C8: a workspace without local state makes `load_terraform_state`
return `False` immediately: no external command is logged, the working
directory and the workspace record are untouched, and (its resource list
being still empty) it yields the no-resources marker summary. -/
theorem claim_C8 (env : Env) (basePath : String)
    (w : TerraformWorkspace) (world : World)
    (hns : w.has_state = false) :
    load_terraform_state env basePath w world = (false, w, world)
    ∧ (w.resources = [] →
        generate_workspace_summary w = .ok (noResourcesSummary w)) := by
  constructor
  · unfold load_terraform_state
    rw [hns]
    rfl
  · intro hr
    exact generate_empty w hr

/-- Witness for C8 on the stateless workspace. -/
theorem claim_C8_witness :
    load_terraform_state envFail "/repo" wsEmpty worldEx
      = (false, wsEmpty, worldEx)
    ∧ (wsEmpty.resources = [] →
        generate_workspace_summary wsEmpty
          = .ok (noResourcesSummary wsEmpty)) :=
  claim_C8 envFail "/repo" wsEmpty worldEx rfl

/-- C9: for a workspace with local state, every external command is
issued from the workspace directory and the `finally` block restores the
working directory to the base path on every outcome of the external
command. -/
theorem claim_C9 (env : Env) (basePath : String)
    (w : TerraformWorkspace) (world : World)
    (hs : w.has_state = true) :
    ∃ newLog,
      (load_terraform_state env basePath w world).2.2.cwd = basePath
      ∧ (load_terraform_state env basePath w world).2.2.log
          = world.log ++ newLog
      ∧ newLog ≠ []
      ∧ ∀ e ∈ newLog, e.1 = w.path := by
  obtain ⟨so, oo⟩ := env
  unfold load_terraform_state
  rw [hs]
  cases so with
  | calledProcessError =>
      exact ⟨[(w.path, ["terraform", "show", "-json"])], rfl, rfl,
        by simp, by intro e he; rw [List.mem_singleton] at he; subst he; rfl⟩
  | jsonDecodeError =>
      exact ⟨[(w.path, ["terraform", "show", "-json"])], rfl, rfl,
        by simp, by intro e he; rw [List.mem_singleton] at he; subst he; rfl⟩
  | fileNotFoundError =>
      exact ⟨[(w.path, ["terraform", "show", "-json"])], rfl, rfl,
        by simp, by intro e he; rw [List.mem_singleton] at he; subst he; rfl⟩
  | success state_data =>
      cases oo with
      | failure =>
          refine ⟨[(w.path, ["terraform", "show", "-json"]),
            (w.path, ["terraform", "output", "-json"])], rfl, ?_, by simp,
            ?_⟩
          · simp
          · intro e he
            rcases List.mem_cons.mp he with h0 | h0
            · subst h0; rfl
            · rw [List.mem_singleton] at h0; subst h0; rfl
      | success outs =>
          refine ⟨[(w.path, ["terraform", "show", "-json"]),
            (w.path, ["terraform", "output", "-json"])], rfl, ?_, by simp,
            ?_⟩
          · simp
          · intro e he
            rcases List.mem_cons.mp he with h0 | h0
            · subst h0; rfl
            · rw [List.mem_singleton] at h0; subst h0; rfl

/-- Witness for C9 on a stateful workspace whose external command
fails. -/
theorem claim_C9_witness :
    ∃ newLog,
      (load_terraform_state envFail "/repo" wsAlice worldEx).2.2.cwd
        = "/repo"
      ∧ (load_terraform_state envFail "/repo" wsAlice worldEx).2.2.log
          = worldEx.log ++ newLog
      ∧ newLog ≠ []
      ∧ ∀ e ∈ newLog, e.1 = wsAlice.path :=
  claim_C9 envFail "/repo" wsAlice worldEx rfl

end KeycloakAnalyzer
